import Mathlib

/-!
Shallow embedding of `src/kuaiqu_psu/kuaiqu_psu.py` (kuaiquctl, driver for
KUAIQU DC power supplies).

Modelling conventions:
  * Python `str` values are modelled as `List Nat` of Unicode code points,
    Python `bytes` as `List Nat` of byte values.  Code points are written as
    numerals with the character in a comment (48 = '0', 60 = '<', 62 = '>', ...).
  * Python `float` is modelled by `PyFloat`: an exact rational payload plus
    the non-finite values (`nan`, `inf`, `-inf`).  The arithmetic performed by
    the driver (comparison, `min`, `int()`, `% 1`, `* 1000`) is modelled
    exactly on ℚ.
  * `bytes.decode()` / `str.encode()` are modelled by a faithful strict UTF-8
    decoder/encoder (`utf8Decode` / `utf8Encode`).
  * Failures (`assert`, `UnicodeDecodeError`, `ValueError`) are modelled as
    `Option`/`Except` failure values; the serial port is modelled by
    `PortState`, a script of pending reads plus a log of writes and a count
    of reads performed.
-/

namespace Kuaiqu

/-- The single message shape of the protocol, mirroring the Python dataclass
`PowerSupply.Command` with its field defaults
(`address='0'`, `function='2'`, `data1='000'`, `data2='000'`, `device='000'`). -/
structure Command where
  address : List Nat := [48]            -- '0'
  function : List Nat := [50]           -- '2'
  data1 : List Nat := [48, 48, 48]      -- '000'
  data2 : List Nat := [48, 48, 48]      -- '000'
  device : List Nat := [48, 48, 48]     -- '000'
deriving DecidableEq, Repr

/-- The `PowerSupply.Command.Function` codes (StrEnum values, each one character). -/
def Command.Function.SET_VOLTAGE : List Nat := [49]     -- '1'

def Command.Function.READ_VOLTAGE : List Nat := [50]    -- '2'

def Command.Function.SET_CURRENT : List Nat := [51]     -- '3'

def Command.Function.READ_CURRENT : List Nat := [52]    -- '4'

def Command.Function.ENABLE_OUTPUT : List Nat := [55]   -- '7'

def Command.Function.DISABLE_OUTPUT : List Nat := [56]  -- '8'

def Command.Function.LOCK : List Nat := [57]            -- '9'

/-- The `PowerSupply.Command.LockData1` codes. -/
def Command.LockData1.LOCK : List Nat := [49, 48, 48]    -- '100'

def Command.LockData1.UNLOCK : List Nat := [50, 48, 48]  -- '200'

/-- Python string formatting with a plain width, `f'{s:w}'`: strings are
left-aligned and padded on the right with the fill character (Python ≥ 3.10
treats a leading `0` in the spec as fill `'0'` with the default alignment). -/
def padRight (fill : Nat) (w : Nat) (s : List Nat) : List Nat :=
  s ++ List.replicate (w - s.length) fill

/-- Strict UTF-8 encoding of one code point (`str.encode()` on each character).
The driver only ever encodes ASCII frames; the multi-byte branches follow
RFC 3629 (Python would reject surrogates, which never arise here). -/
def utf8EncodeChar (c : Nat) : List Nat :=
  if c < 0x80 then [c]
  else if c < 0x800 then [0xC0 + c / 0x40, 0x80 + c % 0x40]
  else if c < 0x10000 then
    [0xE0 + c / 0x1000, 0x80 + (c / 0x40) % 0x40, 0x80 + c % 0x40]
  else
    [0xF0 + c / 0x40000, 0x80 + (c / 0x1000) % 0x40,
     0x80 + (c / 0x40) % 0x40, 0x80 + c % 0x40]

/-- Python `str.encode()`: strict UTF-8 encoding of a string. -/
def utf8Encode (s : List Nat) : List Nat :=
  (s.map utf8EncodeChar).flatten

/-- Strict UTF-8 decoding (`bytes.decode()`), fuel-indexed so that it is
structural and kernel-computable.  The branch structure is the RFC 3629
table Python's strict codec implements: ASCII; two-byte leads C2–DF;
three-byte leads E0–EF with the E0/ED restrictions excluding overlong forms
and surrogates; four-byte leads F0–F4 with the F0/F4 restrictions. -/
def utf8DecodeAux : Nat → List Nat → Option (List Nat)
  | _, [] => some []
  | 0, _ :: _ => none
  | fuel + 1, b1 :: rest =>
    if b1 < 0x80 then
      match utf8DecodeAux fuel rest with
      | some s => some (b1 :: s)
      | none => none
    else if 0xC2 ≤ b1 ∧ b1 ≤ 0xDF then
      match rest with
      | b2 :: rest2 =>
        if 0x80 ≤ b2 ∧ b2 ≤ 0xBF then
          match utf8DecodeAux fuel rest2 with
          | some s => some (((b1 - 0xC0) * 0x40 + (b2 - 0x80)) :: s)
          | none => none
        else none
      | [] => none
    else if 0xE0 ≤ b1 ∧ b1 ≤ 0xEF then
      match rest with
      | b2 :: b3 :: rest3 =>
        if (0x80 ≤ b2 ∧ b2 ≤ 0xBF) ∧ (b1 ≠ 0xE0 ∨ 0xA0 ≤ b2) ∧
           (b1 ≠ 0xED ∨ b2 ≤ 0x9F) ∧ (0x80 ≤ b3 ∧ b3 ≤ 0xBF) then
          match utf8DecodeAux fuel rest3 with
          | some s =>
            some (((b1 - 0xE0) * 0x1000 + (b2 - 0x80) * 0x40 + (b3 - 0x80)) :: s)
          | none => none
        else none
      | _ => none
    else if 0xF0 ≤ b1 ∧ b1 ≤ 0xF4 then
      match rest with
      | b2 :: b3 :: b4 :: rest4 =>
        if (0x80 ≤ b2 ∧ b2 ≤ 0xBF) ∧ (b1 ≠ 0xF0 ∨ 0x90 ≤ b2) ∧
           (b1 ≠ 0xF4 ∨ b2 ≤ 0x8F) ∧ (0x80 ≤ b3 ∧ b3 ≤ 0xBF) ∧
           (0x80 ≤ b4 ∧ b4 ≤ 0xBF) then
          match utf8DecodeAux fuel rest4 with
          | some s =>
            some (((b1 - 0xF0) * 0x40000 + (b2 - 0x80) * 0x1000 +
                   (b3 - 0x80) * 0x40 + (b4 - 0x80)) :: s)
          | none => none
        else none
      | _ => none
    else none

/-- Python `bytes.decode()`: strict UTF-8 decoding of a byte string.  Every step of
`utf8DecodeAux` consumes at least one byte, so `b.length` fuel suffices. -/
def utf8Decode (b : List Nat) : Option (List Nat) :=
  utf8DecodeAux b.length b

/-- Model of `PowerSupply.Command.encode`: it builds the string
`f'<{address:1}{function:1}{data1:03}{data2:03}{device:03}>'`
(13 characters when the fields have their declared widths). -/
def Command.encodeStr (c : Command) : List Nat :=
  [60] ++ padRight 32 1 c.address ++ padRight 32 1 c.function ++
    padRight 48 3 c.data1 ++ padRight 48 3 c.data2 ++ padRight 48 3 c.device ++
    [62]

/-- Model of `PowerSupply.Command.encode`: the f-string above followed by `.encode()`. -/
def Command.encode (c : Command) : List Nat :=
  utf8Encode c.encodeStr

/-- Model of `PowerSupply.Command.from_str`: asserts the string has exactly 13
characters delimited by `<` (offset 0) and `>` (offset 12), then slices the
fixed offsets `s[1]`, `s[2]`, `s[3:6]`, `s[6:9]`, `s[9:12]`.  A failed
`assert` is modelled as `none`. -/
def Command.from_str : List Nat → Option Command
  | [c0, c1, c2, c3, c4, c5, c6, c7, c8, c9, c10, c11, c12] =>
    if c0 = 60 ∧ c12 = 62 then   -- '<' and '>'
      some { address := [c1], function := [c2], data1 := [c3, c4, c5],
             data2 := [c6, c7, c8], device := [c9, c10, c11] }
    else none
  | _ => none

/-- Model of `PowerSupply.Command.from_bytes`: asserts the byte string is non-empty,
has exactly 13 bytes, starts with `b'<'` and ends with `b'>'`, then runs
`from_str` on `b.decode()`.  Both a failed `assert` and a
`UnicodeDecodeError` from `.decode()` are modelled as `none`. -/
def Command.from_bytes (b : List Nat) : Option Command :=
  if b ≠ [] ∧ b.length = 13 ∧ b.head? = some 60 ∧ b.getLast? = some 62 then
    match utf8Decode b with
    | some s => Command.from_str s
    | none => none
  else none

/-- Model of `PowerSupply.Command.is_ok_rsp`: `data1 == 'OK0'`. -/
def Command.is_ok_rsp (c : Command) : Bool :=
  c.data1 = [79, 75, 48]   -- 'OK0'

/-- Python truthiness of `Optional[Command]`: `None` is falsy and a dataclass
instance is always truthy. -/
def pyTruthy : Option Command → Bool :=
  Option.isSome

/-- A Python `float` argument: an exact value for finite floats, plus the
non-finite values.  The driver's arithmetic on accepted arguments
(comparison, `min`, `int()`, `% 1`, `* 1000`) is exact on the payload. -/
inductive PyFloat where
  | finite (val : ℚ)
  | nan
  | inf
  | ninf
deriving DecidableEq, Repr

/-- Python `math.isfinite`. -/
def PyFloat.isFinite : PyFloat → Bool
  | .finite _ => true
  | _ => false

/-- Python `int(f)`: truncation toward zero. -/
def pyInt (q : ℚ) : ℤ :=
  if 0 ≤ q then ⌊q⌋ else ⌈q⌉

/-- Python `f % 1`: the remainder has the sign of the divisor, so it equals
`f - ⌊f⌋`. -/
def pyMod1 (q : ℚ) : ℚ :=
  q - ⌊q⌋

/-- Model of `_split_int_fractional(f)`: `(int(f), f % 1)`. -/
def split_int_fractional (f : ℚ) : ℤ × ℚ :=
  (pyInt f, pyMod1 f)

/-- Decimal digits of a natural number (auxiliary, fuel-indexed so that it is
structural and kernel-computable). -/
def natDigitsAux : Nat → Nat → List Nat → List Nat
  | 0, _, acc => acc
  | fuel + 1, n, acc =>
    if n < 10 then (48 + n) :: acc
    else natDigitsAux fuel (n / 10) ((48 + n % 10) :: acc)

/-- Decimal digit characters of a natural number (`str(n)` for `n ≥ 0`). -/
def natDigits (n : Nat) : List Nat :=
  natDigitsAux (n + 1) n []

/-- Python `f'{n:03}'` for an integer `n`: sign-aware zero padding to a total
width of three characters. -/
def formatInt03 (n : ℤ) : List Nat :=
  if n < 0 then
    let ds := natDigits n.natAbs
    [45] ++ List.replicate (2 - ds.length) 48 ++ ds    -- '-' then zero-fill
  else
    let ds := natDigits n.toNat
    List.replicate (3 - ds.length) 48 ++ ds

/-- The serial port, modelled as a script: `pending` holds the successive
chunks `read_until(b'>')` will return (an exhausted script reads as the empty
chunk, i.e. a timeout), `writes` logs every frame written, `reads` counts the
`read_until` calls performed. -/
structure PortState where
  pending : List (List Nat)
  writes : List (List Nat)
  reads : Nat
deriving DecidableEq, Repr

/-- Model of `serial.Serial.read_until(b'>')`: the next scripted chunk, or the empty
chunk on timeout. -/
def readUntil (p : PortState) : List Nat × PortState :=
  match p.pending with
  | r :: rest => (r, ⟨rest, p.writes, p.reads + 1⟩)
  | [] => ([], ⟨[], p.writes, p.reads + 1⟩)

/-- The exceptions the driver can raise: a failed argument `assert`
(InvalidArgument), a malformed frame (`assert`/`UnicodeDecodeError` in
`from_bytes`, FrameError), and `int()` on a non-numeric field (ValueError). -/
inductive PsuError where
  | invalidArgument
  | frameError
  | valueError
deriving DecidableEq, Repr

/-- The `PowerSupply` object's configuration fields (the port is passed
around explicitly as `PortState`). -/
structure PowerSupply where
  max_voltage : Option ℚ
  max_current : Option ℚ
deriving DecidableEq, Repr

/-- Model of `PowerSupply.__init__(port, max_voltage=60, max_current=5)`. -/
def PowerSupply.init (max_voltage : Option ℚ := some 60)
    (max_current : Option ℚ := some 5) : PowerSupply :=
  { max_voltage := max_voltage, max_current := max_current }

/-- Model of `PowerSupply.send_cmd(cmd, read_response=True)`: encode and write the
command; if a response is expected, read until `>`; a non-empty read is
decoded (a malformed one raises), an empty read falls through to `None`. -/
def send_cmd (cmd : Command) (read_response : Bool) (p : PortState) :
    Except PsuError (Option Command) × PortState :=
  let p1 : PortState := ⟨p.pending, p.writes ++ [cmd.encode], p.reads⟩
  if read_response then
    let r := readUntil p1
    if r.1 ≠ [] then
      match Command.from_bytes r.1 with
      | some rsp => (.ok (some rsp), r.2)
      | none => (.error .frameError, r.2)
    else (.ok none, r.2)
  else (.ok none, p1)

/-- The `Mode` enum. -/
inductive Mode where
  | CONSTANT_VOLTAGE
  | CONSTANT_CURRENT
deriving DecidableEq, Repr

/-- Model of `PowerSupply.output(enable)`: send the enable/disable function code with
`read_response=False`. -/
def PowerSupply.output (_psu : PowerSupply) (enable : Bool) (p : PortState) :
    Except PsuError (Option Command) × PortState :=
  send_cmd
    { function := if enable then Command.Function.ENABLE_OUTPUT
                  else Command.Function.DISABLE_OUTPUT }
    false p

/-- The setpoint command built by `set_voltage`/`set_current` after
validation and clamping:
`int_part, fractional_part = _split_int_fractional(v)`;
`fractional_part = int(fractional_part * 1000)`;
`Command(function=fn, data1=f'{int_part:03}', data2=f'{fractional_part:03}')`. -/
def setpointCmd (fn : List Nat) (v : ℚ) : Command :=
  { function := fn,
    data1 := formatInt03 (split_int_fractional v).1,
    data2 := formatInt03 (pyInt ((split_int_fractional v).2 * 1000)) }

/-- Model of `PowerSupply.set_voltage(voltage)`: assert finite and non-negative (an
`AssertionError` is modelled as `invalidArgument` with the port untouched),
clamp to `max_voltage` when configured, then send the setpoint command. -/
def PowerSupply.set_voltage (psu : PowerSupply) (voltage : PyFloat)
    (p : PortState) : Except PsuError (Option Command) × PortState :=
  match voltage with
  | .finite v =>
    if v < 0 then (.error .invalidArgument, p)
    else
      let v1 := match psu.max_voltage with
        | some m => if m < v then min v m else v
        | none => v
      send_cmd (setpointCmd Command.Function.SET_VOLTAGE v1) true p
  | _ => (.error .invalidArgument, p)

/-- Model of `PowerSupply.set_current(current)`: same shape as `set_voltage` with
`max_current` and the SET_CURRENT function code. -/
def PowerSupply.set_current (psu : PowerSupply) (current : PyFloat)
    (p : PortState) : Except PsuError (Option Command) × PortState :=
  match current with
  | .finite v =>
    if v < 0 then (.error .invalidArgument, p)
    else
      let v1 := match psu.max_current with
        | some m => if m < v then min v m else v
        | none => v
      send_cmd (setpointCmd Command.Function.SET_CURRENT v1) true p
  | _ => (.error .invalidArgument, p)

/-- Python `int(s)` on a string: optional sign followed by decimal digits
(the driver only ever applies it to three-character response fields). -/
def digitsVal : List Nat → Option ℕ
  | [] => none
  | s =>
    if s.all fun c => 48 ≤ c ∧ c ≤ 57 then
      some (s.foldl (fun a c => a * 10 + (c - 48)) 0)
    else none

/-- Python `int(s)` including an optional leading sign. -/
def pyIntOfStr : List Nat → Option ℤ
  | 43 :: rest => (digitsVal rest).map fun n => (n : ℤ)     -- '+'
  | 45 :: rest => (digitsVal rest).map fun n => -(n : ℤ)    -- '-'
  | s => (digitsVal s).map fun n => (n : ℤ)

/-- Model of `PowerSupply.read_voltage()`: send READ_VOLTAGE expecting a response; on
a response, `int(data1) + int(data2) / 1000` and the mode derived from
`address == '1'`; on no response, `None`. -/
def PowerSupply.read_voltage (_psu : PowerSupply) (p : PortState) :
    Except PsuError (Option (ℚ × Mode)) × PortState :=
  let r := send_cmd { function := Command.Function.READ_VOLTAGE } true p
  match r.1 with
  | .error e => (.error e, r.2)
  | .ok (some rsp) =>
    match pyIntOfStr rsp.data1, pyIntOfStr rsp.data2 with
    | some i1, some i2 =>
      (.ok (some ((i1 : ℚ) + (i2 : ℚ) / 1000,
        if rsp.address = [49] then Mode.CONSTANT_VOLTAGE
        else Mode.CONSTANT_CURRENT)), r.2)
    | _, _ => (.error .valueError, r.2)
  | .ok none => (.ok none, r.2)

/-- Model of `PowerSupply.read_current()`: same shape with READ_CURRENT. -/
def PowerSupply.read_current (_psu : PowerSupply) (p : PortState) :
    Except PsuError (Option (ℚ × Mode)) × PortState :=
  let r := send_cmd { function := Command.Function.READ_CURRENT } true p
  match r.1 with
  | .error e => (.error e, r.2)
  | .ok (some rsp) =>
    match pyIntOfStr rsp.data1, pyIntOfStr rsp.data2 with
    | some i1, some i2 =>
      (.ok (some ((i1 : ℚ) + (i2 : ℚ) / 1000,
        if rsp.address = [49] then Mode.CONSTANT_VOLTAGE
        else Mode.CONSTANT_CURRENT)), r.2)
    | _, _ => (.error .valueError, r.2)
  | .ok none => (.ok none, r.2)

/-- Model of `PowerSupply.lock_buttons(lock)`: send LOCK with the LOCK/UNLOCK data1
code, expecting a response. -/
def PowerSupply.lock_buttons (_psu : PowerSupply) (lock : Bool)
    (p : PortState) : Except PsuError (Option Command) × PortState :=
  send_cmd
    { function := Command.Function.LOCK,
      data1 := if lock then Command.LockData1.LOCK
               else Command.LockData1.UNLOCK }
    true p

/-! ### Helper lemmas about the codec -/

-- Sanity checks on concrete frames.
example : Command.from_bytes
    [60, 49, 52, 79, 75, 48, 48, 48, 48, 48, 48, 48, 62]   -- '<14OK0000000>'
    = some { address := [49], function := [52], data1 := [79, 75, 48],
             data2 := [48, 48, 48], device := [48, 48, 48] } := by decide

example : Command.encode {} = [60, 48, 50, 48, 48, 48, 48, 48, 48, 48, 48, 48, 62] := by decide

example : Command.from_bytes [60, 62] = none := by decide

example : formatInt03 5 = [48, 48, 53] := by decide       -- '005'

example : formatInt03 156 = [49, 53, 54] := by decide     -- '156'

example : formatInt03 0 = [48, 48, 48] := by decide       -- '000'

theorem padRight_of_length_eq {f w : Nat} {s : List Nat} (h : s.length = w) :
    padRight f w s = s := by
  simp [padRight, h]

theorem padRight_length_of_le {f w : Nat} {s : List Nat} (h : s.length ≤ w) :
    (padRight f w s).length = w := by
  simp only [padRight, List.length_append, List.length_replicate]
  omega

theorem utf8Encode_ascii {s : List Nat} (h : ∀ x ∈ s, x < 128) :
    utf8Encode s = s := by
  induction s with
  | nil => rfl
  | cons a t ih =>
    have ha : a < 128 := h a (List.mem_cons_self a t)
    have ht : ∀ x ∈ t, x < 128 := fun x hx => h x (List.mem_cons_of_mem a hx)
    simp [utf8Encode, utf8EncodeChar, ha] at ih ⊢
    exact ih ht

theorem utf8DecodeAux_ascii {fuel : Nat} {b : List Nat} (hf : b.length ≤ fuel)
    (h : ∀ x ∈ b, x < 128) : utf8DecodeAux fuel b = some b := by
  induction fuel generalizing b with
  | zero =>
    cases b with
    | nil => rfl
    | cons a t => simp at hf
  | succ n ih =>
    cases b with
    | nil => rfl
    | cons a t =>
      have ha : a < 128 := h a (List.mem_cons_self a t)
      have ht : ∀ x ∈ t, x < 128 := fun x hx => h x (List.mem_cons_of_mem a hx)
      have hlen : t.length ≤ n := by simpa using hf
      simp [utf8DecodeAux, ha, ih hlen ht]

theorem utf8Decode_ascii {b : List Nat} (h : ∀ x ∈ b, x < 128) :
    utf8Decode b = some b :=
  utf8DecodeAux_ascii le_rfl h

/-- A successful UTF-8 decode never lengthens the text, and it preserves the
length exactly only on all-ASCII input (in which case it is the identity). -/
theorem utf8DecodeAux_length {fuel : Nat} {b s : List Nat}
    (h : utf8DecodeAux fuel b = some s) :
    s.length ≤ b.length ∧
      (b.length ≤ s.length → s = b ∧ ∀ x ∈ b, x < 128) := by
  induction fuel generalizing b s with
  | zero =>
    cases b with
    | nil =>
      simp only [utf8DecodeAux, Option.some.injEq] at h
      subst h
      simp
    | cons a t => simp [utf8DecodeAux] at h
  | succ n ih =>
    cases b with
    | nil =>
      simp only [utf8DecodeAux, Option.some.injEq] at h
      subst h
      simp
    | cons b1 rest =>
      simp only [utf8DecodeAux] at h
      split at h
      · -- ASCII branch
        rename_i h1
        split at h
        · rename_i s1 heq
          obtain ⟨hle, hiff⟩ := ih heq
          cases h
          constructor
          · simpa using hle
          · intro hge
            have : rest.length ≤ s1.length := by simpa using hge
            obtain ⟨he, ha⟩ := hiff this
            subst he
            refine ⟨rfl, ?_⟩
            intro x hx
            rcases List.mem_cons.mp hx with hx | hx
            · omega
            · exact ha x hx
        · exact absurd h (by simp)
      · split at h
        · -- two-byte branch
          rename_i h1 h2
          split at h
          · rename_i b2 rest2
            split at h
            · split at h
              · rename_i s1 heq
                obtain ⟨hle, _⟩ := ih heq
                cases h
                constructor
                · simp only [List.length_cons]
                  omega
                · intro hge
                  simp only [List.length_cons] at hge
                  omega
              · exact absurd h (by simp)
            · exact absurd h (by simp)
          · exact absurd h (by simp)
        · split at h
          · -- three-byte branch
            rename_i h1 h2 h3
            split at h
            · rename_i b2 b3 rest3
              split at h
              · split at h
                · rename_i s1 heq
                  obtain ⟨hle, _⟩ := ih heq
                  cases h
                  constructor
                  · simp only [List.length_cons]
                    omega
                  · intro hge
                    simp only [List.length_cons] at hge
                    omega
                · exact absurd h (by simp)
              · exact absurd h (by simp)
            · exact absurd h (by simp)
          · split at h
            · -- four-byte branch
              rename_i h1 h2 h3 h4
              split at h
              · rename_i b2 b3 b4 rest4
                split at h
                · split at h
                  · rename_i s1 heq
                    obtain ⟨hle, _⟩ := ih heq
                    cases h
                    constructor
                    · simp only [List.length_cons]
                      omega
                    · intro hge
                      simp only [List.length_cons] at hge
                      omega
                  · exact absurd h (by simp)
                · exact absurd h (by simp)
              · exact absurd h (by simp)
            · exact absurd h (by simp)

theorem utf8Decode_length {b s : List Nat} (h : utf8Decode b = some s) :
    s.length ≤ b.length ∧
      (b.length ≤ s.length → s = b ∧ ∀ x ∈ b, x < 128) :=
  utf8DecodeAux_length h

/-- Anatomy of a successful `from_str`: the string is exactly the frame
`'<'` + address + function + data1 + data2 + device + `'>'` with the fields
at their declared widths. -/
theorem from_str_some_elim {s : List Nat} {c : Command}
    (h : Command.from_str s = some c) :
    s = [60] ++ c.address ++ c.function ++ c.data1 ++ c.data2 ++ c.device ++ [62]
      ∧ c.address.length = 1 ∧ c.function.length = 1 ∧ c.data1.length = 3
      ∧ c.data2.length = 3 ∧ c.device.length = 3 := by
  rw [Command.from_str.eq_def] at h
  split at h
  · split at h
    · rename_i hdelim
      cases h
      simp_all
    · exact absurd h (by simp)
  · exact absurd h (by simp)

theorem from_str_some_length {s : List Nat} {c : Command}
    (h : Command.from_str s = some c) : s.length = 13 := by
  obtain ⟨hs, h1, h2, h3, h4, h5⟩ := from_str_some_elim h
  subst hs
  simp [h1, h2, h3, h4, h5]

theorem from_str_none_of_length_ne {s : List Nat} (h : s.length ≠ 13) :
    Command.from_str s = none := by
  cases hfs : Command.from_str s with
  | none => rfl
  | some c => exact absurd (from_str_some_length hfs) h

/-- A successfully decoded frame re-encodes to the very byte string it was
decoded from. -/
theorem from_bytes_some_encode {b : List Nat} {c : Command}
    (h : Command.from_bytes b = some c) : c.encode = b := by
  rw [Command.from_bytes] at h
  split at h
  · rename_i hcond
    obtain ⟨hne, hlen, hhead, hlast⟩ := hcond
    split at h
    · rename_i s hdec
      obtain ⟨hs, h1, h2, h3, h4, h5⟩ := from_str_some_elim h
      have hslen : s.length = 13 := from_str_some_length h
      obtain ⟨_, heq⟩ := utf8Decode_length hdec
      obtain ⟨hsb, hascii⟩ := heq (by omega)
      subst hsb
      have : Command.encodeStr c = s := by
        rw [Command.encodeStr, padRight_of_length_eq h1,
          padRight_of_length_eq h2, padRight_of_length_eq h3,
          padRight_of_length_eq h4, padRight_of_length_eq h5, hs]
      rw [Command.encode, this, utf8Encode_ascii hascii]
    · exact absurd h (by simp)
  · exact absurd h (by simp)

theorem from_bytes_ne_nil {b : List Nat} {c : Command}
    (h : Command.from_bytes b = some c) : b ≠ [] := by
  rw [Command.from_bytes] at h
  split at h
  · rename_i hcond
    exact hcond.1
  · exact absurd h (by simp)

/-! ### Helper lemmas about the exchange engine and the facade -/

theorem send_cmd_response {cmd : Command} {b : List Nat} {c : Command}
    (rest : List (List Nat)) (w : List (List Nat)) (r : Nat)
    (h : Command.from_bytes b = some c) :
    send_cmd cmd true ⟨b :: rest, w, r⟩ =
      (.ok (some c), ⟨rest, w ++ [cmd.encode], r + 1⟩) := by
  have hne : b ≠ [] := from_bytes_ne_nil h
  simp [send_cmd, readUntil, hne, h]

theorem send_cmd_timeout (cmd : Command) (w : List (List Nat)) (r : Nat) :
    send_cmd cmd true ⟨[], w, r⟩ = (.ok none, ⟨[], w ++ [cmd.encode], r + 1⟩) :=
  rfl

theorem send_cmd_empty_chunk (cmd : Command) (rest : List (List Nat))
    (w : List (List Nat)) (r : Nat) :
    send_cmd cmd true ⟨[] :: rest, w, r⟩ =
      (.ok none, ⟨rest, w ++ [cmd.encode], r + 1⟩) :=
  rfl

theorem set_voltage_clamped {mc : Option ℚ} {m v : ℚ} (p : PortState)
    (h0 : 0 ≤ v) (hm : m < v) :
    (PowerSupply.mk (some m) mc).set_voltage (.finite v) p =
      send_cmd (setpointCmd Command.Function.SET_VOLTAGE m) true p := by
  simp only [PowerSupply.set_voltage]
  rw [if_neg (not_lt.mpr h0), if_pos hm, min_eq_right hm.le]

theorem set_voltage_unlimited {mc : Option ℚ} {v : ℚ} (p : PortState)
    (h0 : 0 ≤ v) :
    (PowerSupply.mk none mc).set_voltage (.finite v) p =
      send_cmd (setpointCmd Command.Function.SET_VOLTAGE v) true p := by
  simp only [PowerSupply.set_voltage]
  rw [if_neg (not_lt.mpr h0)]

theorem set_voltage_unclamped {mc : Option ℚ} {m v : ℚ} (p : PortState)
    (h0 : 0 ≤ v) (hm : ¬m < v) :
    (PowerSupply.mk (some m) mc).set_voltage (.finite v) p =
      send_cmd (setpointCmd Command.Function.SET_VOLTAGE v) true p := by
  simp only [PowerSupply.set_voltage]
  rw [if_neg (not_lt.mpr h0), if_neg hm]

theorem set_current_clamped {mv : Option ℚ} {m v : ℚ} (p : PortState)
    (h0 : 0 ≤ v) (hm : m < v) :
    (PowerSupply.mk mv (some m)).set_current (.finite v) p =
      send_cmd (setpointCmd Command.Function.SET_CURRENT m) true p := by
  simp only [PowerSupply.set_current]
  rw [if_neg (not_lt.mpr h0), if_pos hm, min_eq_right hm.le]

theorem set_current_unlimited {mv : Option ℚ} {v : ℚ} (p : PortState)
    (h0 : 0 ≤ v) :
    (PowerSupply.mk mv none).set_current (.finite v) p =
      send_cmd (setpointCmd Command.Function.SET_CURRENT v) true p := by
  simp only [PowerSupply.set_current]
  rw [if_neg (not_lt.mpr h0)]

theorem set_current_unclamped {mv : Option ℚ} {m v : ℚ} (p : PortState)
    (h0 : 0 ≤ v) (hm : ¬m < v) :
    (PowerSupply.mk mv (some m)).set_current (.finite v) p =
      send_cmd (setpointCmd Command.Function.SET_CURRENT v) true p := by
  simp only [PowerSupply.set_current]
  rw [if_neg (not_lt.mpr h0), if_neg hm]

/-! ### Claim theorems -/

/-- Claim C2: for every syntactically valid 13-byte frame (length 13, `<` at
offset 0, `>` at the last byte), decoding, re-encoding the resulting Command
and decoding again yields the same Command as the first decode:
`decode(encode(decode(frame))) == decode(frame)`. -/
theorem roundtrip_decode_encode_decode (b : List Nat) (_hlen : b.length = 13)
    (_hhead : b.head? = some 60) (_hlast : b.getLast? = some 62) :
    (Command.from_bytes b).bind (fun c => Command.from_bytes c.encode) =
      Command.from_bytes b := by
  cases h : Command.from_bytes b with
  | none => rfl
  | some c =>
    show Command.from_bytes c.encode = some c
    rw [from_bytes_some_encode h]
    exact h

theorem roundtrip_decode_encode_decode_witness :
    ([60, 49, 52, 79, 75, 48, 48, 48, 48, 48, 48, 48, 62] : List Nat).length = 13
    ∧ ([60, 49, 52, 79, 75, 48, 48, 48, 48, 48, 48, 48, 62] : List Nat).head? = some 60
    ∧ ([60, 49, 52, 79, 75, 48, 48, 48, 48, 48, 48, 48, 62] : List Nat).getLast? = some 62
    ∧ (Command.from_bytes [60, 49, 52, 79, 75, 48, 48, 48, 48, 48, 48, 48, 62]).bind
        (fun c => Command.from_bytes c.encode) =
        Command.from_bytes [60, 49, 52, 79, 75, 48, 48, 48, 48, 48, 48, 48, 62] :=
  ⟨by decide, by decide, by decide,
   roundtrip_decode_encode_decode _ (by decide) (by decide) (by decide)⟩

/-- Claim C3: `set_voltage(v)` with a configured `max_voltage = m < v` sends
the encoded setpoint for `m` rather than `v`; with `max_voltage = None` it
sends `v` unclamped; and the same holds for `set_current`/`max_current`. -/
theorem setpoint_clamping (m v : ℚ) (mv mc : Option ℚ) (p : PortState)
    (h0 : 0 ≤ v) :
    (m < v →
      (PowerSupply.mk (some m) mc).set_voltage (.finite v) p =
        send_cmd (setpointCmd Command.Function.SET_VOLTAGE m) true p)
    ∧ (PowerSupply.mk none mc).set_voltage (.finite v) p =
        send_cmd (setpointCmd Command.Function.SET_VOLTAGE v) true p
    ∧ (m < v →
      (PowerSupply.mk mv (some m)).set_current (.finite v) p =
        send_cmd (setpointCmd Command.Function.SET_CURRENT m) true p)
    ∧ (PowerSupply.mk mv none).set_current (.finite v) p =
        send_cmd (setpointCmd Command.Function.SET_CURRENT v) true p :=
  ⟨fun hm => set_voltage_clamped p h0 hm, set_voltage_unlimited p h0,
   fun hm => set_current_clamped p h0 hm, set_current_unlimited p h0⟩

theorem setpoint_clamping_witness :
    (0 : ℚ) ≤ 61 ∧ (60 : ℚ) < 61
    ∧ (PowerSupply.mk (some 60) none).set_voltage (.finite 61) ⟨[], [], 0⟩ =
        send_cmd (setpointCmd Command.Function.SET_VOLTAGE 60) true ⟨[], [], 0⟩
    ∧ (PowerSupply.mk none none).set_voltage (.finite 61) ⟨[], [], 0⟩ =
        send_cmd (setpointCmd Command.Function.SET_VOLTAGE 61) true ⟨[], [], 0⟩ :=
  ⟨by norm_num, by norm_num,
   (setpoint_clamping 60 61 none none ⟨[], [], 0⟩ (by norm_num)).1 (by norm_num),
   (setpoint_clamping 60 61 none none ⟨[], [], 0⟩ (by norm_num)).2.1⟩

/-- Claim C7: for every non-finite or negative setpoint argument,
`set_voltage` and `set_current` fail with InvalidArgument and the port is
untouched (no write, no read). -/
theorem invalid_setpoint_no_io (psu : PowerSupply) (v : PyFloat)
    (p : PortState)
    (h : v.isFinite = false ∨ ∃ q : ℚ, v = .finite q ∧ q < 0) :
    psu.set_voltage v p = (.error .invalidArgument, p)
    ∧ psu.set_current v p = (.error .invalidArgument, p) := by
  cases v with
  | finite q =>
    rcases h with h | ⟨q', hq, hneg⟩
    · simp [PyFloat.isFinite] at h
    · obtain rfl : q = q' := by injection hq
      constructor
      · simp only [PowerSupply.set_voltage, if_pos hneg]
      · simp only [PowerSupply.set_current, if_pos hneg]
  | nan => exact ⟨rfl, rfl⟩
  | inf => exact ⟨rfl, rfl⟩
  | ninf => exact ⟨rfl, rfl⟩

theorem invalid_setpoint_no_io_witness :
    PowerSupply.init.set_voltage (.finite (-1)) ⟨[], [], 0⟩ =
      (.error .invalidArgument, ⟨[], [], 0⟩)
    ∧ PowerSupply.init.set_current (.finite (-1)) ⟨[], [], 0⟩ =
      (.error .invalidArgument, ⟨[], [], 0⟩)
    ∧ PowerSupply.init.set_voltage .nan ⟨[], [], 0⟩ =
      (.error .invalidArgument, ⟨[], [], 0⟩) :=
  ⟨(invalid_setpoint_no_io PowerSupply.init (.finite (-1)) ⟨[], [], 0⟩
      (Or.inr ⟨-1, rfl, by norm_num⟩)).1,
   (invalid_setpoint_no_io PowerSupply.init (.finite (-1)) ⟨[], [], 0⟩
      (Or.inr ⟨-1, rfl, by norm_num⟩)).2,
   (invalid_setpoint_no_io PowerSupply.init .nan ⟨[], [], 0⟩ (Or.inl rfl)).1⟩

/-- Claim C8: on a present, well-formed response, `read_voltage` and
`read_current` return `(int(data1) + int(data2)/1000, mode)` with mode
CONSTANT_VOLTAGE exactly when the response address is `'1'`; an empty read
(timeout) returns absence, not an error. -/
theorem read_value_and_mode (psu : PowerSupply) (b : List Nat)
    (rest : List (List Nat)) (w : List (List Nat)) (r : Nat) (c : Command)
    (i1 i2 : ℤ) (hb : Command.from_bytes b = some c)
    (h1 : pyIntOfStr c.data1 = some i1) (h2 : pyIntOfStr c.data2 = some i2) :
    (psu.read_voltage ⟨b :: rest, w, r⟩).1 =
      .ok (some ((i1 : ℚ) + (i2 : ℚ) / 1000,
        if c.address = [49] then Mode.CONSTANT_VOLTAGE
        else Mode.CONSTANT_CURRENT))
    ∧ (psu.read_current ⟨b :: rest, w, r⟩).1 =
      .ok (some ((i1 : ℚ) + (i2 : ℚ) / 1000,
        if c.address = [49] then Mode.CONSTANT_VOLTAGE
        else Mode.CONSTANT_CURRENT))
    ∧ (psu.read_voltage ⟨[], w, r⟩).1 = .ok none
    ∧ (psu.read_current ⟨[], w, r⟩).1 = .ok none := by
  refine ⟨?_, ?_, rfl, rfl⟩
  · simp [PowerSupply.read_voltage, send_cmd_response rest w r hb, h1, h2]
  · simp [PowerSupply.read_current, send_cmd_response rest w r hb, h1, h2]

theorem read_value_and_mode_witness :
    (PowerSupply.init.read_voltage
        ⟨[[60, 49, 50, 48, 48, 53, 49, 53, 48, 48, 48, 48, 62]], [], 0⟩).1 =
      .ok (some (((5 : ℤ) : ℚ) + ((150 : ℤ) : ℚ) / 1000,
        if ([49] : List Nat) = [49] then Mode.CONSTANT_VOLTAGE
        else Mode.CONSTANT_CURRENT)) :=
  (read_value_and_mode PowerSupply.init
      [60, 49, 50, 48, 48, 53, 49, 53, 48, 48, 48, 48, 62] [] [] 0
      { address := [49], function := [50], data1 := [48, 48, 53],
        data2 := [49, 53, 48], device := [48, 48, 48] }
      5 150 (by decide) (by decide) (by decide)).1

/-- Claim C9: `output(enable)` performs exactly one write (the encoded
enable/disable command) and zero reads, and returns no result. -/
theorem output_write_only (psu : PowerSupply) (enable : Bool) (p : PortState) :
    psu.output enable p =
      (.ok none,
       ⟨p.pending,
        p.writes ++ [Command.encode
          { function := if enable then Command.Function.ENABLE_OUTPUT
                        else Command.Function.DISABLE_OUTPUT }],
        p.reads⟩) :=
  rfl

/-- Claim C10: the constructor defaults are `max_voltage = 60` and
`max_current = 5`, so a default-constructed PowerSupply clamps setpoints to
60 V and 5 A; passing None disables the limit. -/
theorem default_limits :
    PowerSupply.init.max_voltage = some 60
    ∧ PowerSupply.init.max_current = some 5
    ∧ (∀ (v : ℚ) (p : PortState), 60 < v →
        PowerSupply.init.set_voltage (.finite v) p =
          send_cmd (setpointCmd Command.Function.SET_VOLTAGE 60) true p)
    ∧ (∀ (v : ℚ) (p : PortState), 5 < v →
        PowerSupply.init.set_current (.finite v) p =
          send_cmd (setpointCmd Command.Function.SET_CURRENT 5) true p)
    ∧ (PowerSupply.init none none).max_voltage = none
    ∧ (PowerSupply.init none none).max_current = none := by
  refine ⟨rfl, rfl, ?_, ?_, rfl, rfl⟩
  · intro v p hv
    exact set_voltage_clamped p (le_of_lt (lt_trans (by norm_num) hv)) hv
  · intro v p hv
    exact set_current_clamped p (le_of_lt (lt_trans (by norm_num) hv)) hv

theorem default_limits_witness :
    PowerSupply.init.set_voltage (.finite 61) ⟨[], [], 0⟩ =
      send_cmd (setpointCmd Command.Function.SET_VOLTAGE 60) true ⟨[], [], 0⟩
    ∧ PowerSupply.init.set_current (.finite 6) ⟨[], [], 0⟩ =
      send_cmd (setpointCmd Command.Function.SET_CURRENT 5) true ⟨[], [], 0⟩ :=
  ⟨default_limits.2.2.1 61 ⟨[], [], 0⟩ (by norm_num),
   default_limits.2.2.2.1 6 ⟨[], [], 0⟩ (by norm_num)⟩

/-- Claim C4, counterexample: a 13-byte input with `<` at offset 0 and `>`
at the last byte on which decode nevertheless fails (the `0xFF` byte is not
valid UTF-8, so `b.decode()` raises before any field is sliced), refuting
"for every other input it succeeds". -/
theorem decode_counterexample :
    ([60, 49, 255, 48, 48, 48, 48, 48, 48, 48, 48, 48, 62] : List Nat).length = 13
    ∧ ([60, 49, 255, 48, 48, 48, 48, 48, 48, 48, 48, 48, 62] : List Nat).head? = some 60
    ∧ ([60, 49, 255, 48, 48, 48, 48, 48, 48, 48, 48, 48, 62] : List Nat).getLast? = some 62
    ∧ Command.from_bytes [60, 49, 255, 48, 48, 48, 48, 48, 48, 48, 48, 48, 62] = none := by
  refine ⟨by decide, by decide, by decide, by decide⟩

/-- Claim C4, amended: decode fails for every input that is empty, of length
other than 13, lacking the delimiters, or containing a byte that is not
ASCII (for such bytes the `bytes.decode()` step either raises or yields
fewer than 13 characters); for every 13-byte all-ASCII input delimited by
`<` and `>` it succeeds and slices the five fields at the fixed offsets,
without validating field contents. -/
theorem decode_validation_amended :
    (∀ b : List Nat,
      b = [] ∨ b.length ≠ 13 ∨ b.head? ≠ some 60 ∨ b.getLast? ≠ some 62 ∨
        (∃ x ∈ b, 128 ≤ x) →
      Command.from_bytes b = none)
    ∧ (∀ x1 x2 x3 x4 x5 x6 x7 x8 x9 x10 x11 : Nat,
      x1 < 128 → x2 < 128 → x3 < 128 → x4 < 128 → x5 < 128 → x6 < 128 →
      x7 < 128 → x8 < 128 → x9 < 128 → x10 < 128 → x11 < 128 →
      Command.from_bytes [60, x1, x2, x3, x4, x5, x6, x7, x8, x9, x10, x11, 62] =
        some { address := [x1], function := [x2], data1 := [x3, x4, x5],
               data2 := [x6, x7, x8], device := [x9, x10, x11] }) := by
  constructor
  · intro b hb
    rw [Command.from_bytes]
    rcases hb with h | h | h | h | ⟨x, hx, hge⟩
    · rw [if_neg]
      simp [h]
    · rw [if_neg]
      simp [h]
    · rw [if_neg]
      simp [h]
    · rw [if_neg]
      simp [h]
    · split
      · rename_i hcond
        cases hdec : utf8Decode b with
        | none => rfl
        | some s =>
          obtain ⟨hle, hiff⟩ := utf8Decode_length hdec
          have hblen : b.length = 13 := hcond.2.1
          have hslen : s.length ≠ 13 := by
            intro h13
            obtain ⟨_, hascii⟩ := hiff (by omega)
            exact absurd (hascii x hx) (by omega)
          show Command.from_str s = none
          exact from_str_none_of_length_ne hslen
      · rfl
  · intro x1 x2 x3 x4 x5 x6 x7 x8 x9 x10 x11 h1 h2 h3 h4 h5 h6 h7 h8 h9 h10 h11
    rw [Command.from_bytes]
    rw [if_pos]
    · have hall : ∀ x ∈ ([60, x1, x2, x3, x4, x5, x6, x7, x8, x9, x10, x11, 62] :
          List Nat), x < 128 := by
        intro x hx
        simp only [List.mem_cons, List.not_mem_nil, or_false] at hx
        rcases hx with rfl | rfl | rfl | rfl | rfl | rfl | rfl | rfl | rfl | rfl |
          rfl | rfl | rfl <;> omega
      rw [utf8Decode_ascii hall]
      simp [Command.from_str]
    · refine ⟨by simp, by simp, rfl, by simp⟩

theorem decode_validation_amended_witness :
    Command.from_bytes [] = none
    ∧ Command.from_bytes [60, 49, 50, 48, 48, 53, 49, 53, 54, 48, 48, 48, 62] =
        some { address := [49], function := [50], data1 := [48, 48, 53],
               data2 := [49, 53, 54], device := [48, 48, 48] } :=
  ⟨decode_validation_amended.1 [] (Or.inl rfl),
   decode_validation_amended.2 49 50 48 48 53 49 53 54 48 48 48
     (by decide) (by decide) (by decide) (by decide) (by decide) (by decide)
     (by decide) (by decide) (by decide) (by decide) (by decide)⟩

/-- Claim C5, counterexample: a Command whose `data1` formats to four
characters is not rejected at construction; `encode` happily produces a
14-byte frame, refuting both the rejection and the "always exactly 13
bytes" consequence. -/
theorem encode_width_counterexample :
    Command.encode { data1 := [65, 66, 67, 68] } =
      [60, 48, 50, 65, 66, 67, 68, 48, 48, 48, 48, 48, 48, 62]
    ∧ (Command.encode { data1 := [65, 66, 67, 68] }).length = 14 := by
  refine ⟨by decide, by decide⟩

/-- Claim C5, amended: construction performs no width validation and encode
never rejects — a command with an over-wide field encodes to a frame longer
than 13 bytes (a 4-character `data1` yields 14 bytes); every command whose
fields are ASCII and fit their declared slots (1 character for address and
function, 3 for data1, data2, device — shorter fields are padded) encodes
to exactly 13 bytes starting with `<` and ending with `>`. -/
theorem encode_width_amended :
    (∀ c : Command, c.address.length ≤ 1 → c.function.length ≤ 1 →
      c.data1.length ≤ 3 → c.data2.length ≤ 3 → c.device.length ≤ 3 →
      (∀ x ∈ c.address ++ c.function ++ c.data1 ++ c.data2 ++ c.device,
        x < 128) →
      c.encode.length = 13 ∧ c.encode.head? = some 60
        ∧ c.encode.getLast? = some 62)
    ∧ (Command.encode { data1 := [65, 66, 67, 68] }).length = 14 := by
  constructor
  · intro c ha hf h1 h2 h3 hascii
    have hall : ∀ x ∈ c.encodeStr, x < 128 := by
      intro x hx
      rw [Command.encodeStr] at hx
      simp only [List.mem_append, List.mem_cons, List.not_mem_nil, or_false,
        List.mem_singleton] at hx
      have hpad : ∀ (f w : Nat) (s : List Nat), f < 128 → (∀ y ∈ s, y < 128) →
          x ∈ padRight f w s → x < 128 := by
        intro f w s hfl hs hmem
        rcases List.mem_append.mp hmem with hmem | hmem
        · exact hs x hmem
        · rw [List.eq_of_mem_replicate hmem]
          exact hfl
      have hmem : ∀ y ∈ c.address ++ c.function ++ c.data1 ++ c.data2 ++
          c.device, y < 128 := hascii
      simp only [List.mem_append] at hmem
      rcases hx with (((((rfl | hx) | hx) | hx) | hx) | hx) | rfl
      · omega
      · exact hpad 32 1 c.address (by omega) (fun y hy => hmem y (by tauto)) hx
      · exact hpad 32 1 c.function (by omega) (fun y hy => hmem y (by tauto)) hx
      · exact hpad 48 3 c.data1 (by omega) (fun y hy => hmem y (by tauto)) hx
      · exact hpad 48 3 c.data2 (by omega) (fun y hy => hmem y (by tauto)) hx
      · exact hpad 48 3 c.device (by omega) (fun y hy => hmem y (by tauto)) hx
      · omega
    have henc : c.encode = c.encodeStr := by
      rw [Command.encode, utf8Encode_ascii hall]
    refine ⟨?_, ?_, ?_⟩
    · rw [henc, Command.encodeStr]
      simp only [List.length_append, padRight_length_of_le ha,
        padRight_length_of_le hf, padRight_length_of_le h1,
        padRight_length_of_le h2, padRight_length_of_le h3,
        List.length_singleton]
    · rw [henc, Command.encodeStr]
      rfl
    · rw [henc, Command.encodeStr, List.getLast?_concat]
  · decide

theorem encode_width_amended_witness :
    (Command.encode {}).length = 13 ∧ (Command.encode {}).head? = some 60
      ∧ (Command.encode {}).getLast? = some 62 :=
  encode_width_amended.1 {} (by decide) (by decide) (by decide) (by decide)
    (by decide) (by decide)

/-- Claim C6: setpoints are split into integer part and fractional part
truncated (floor on a non-negative value), not rounded, to thousandths;
in particular `set_voltage(5.1567)` sends data1 = "005" and data2 = "156". -/
theorem setpoint_truncation :
    (∀ (fn : List Nat) (v : ℚ), 0 ≤ v →
      setpointCmd fn v =
        { function := fn, data1 := formatInt03 ⌊v⌋,
          data2 := formatInt03 ⌊(v - ⌊v⌋) * 1000⌋ })
    ∧ ∀ p : PortState,
      PowerSupply.init.set_voltage (.finite (51567 / 10000)) p =
        send_cmd { function := [49], data1 := [48, 48, 53],
                   data2 := [49, 53, 54] } true p := by
  constructor
  · intro fn v hv
    have hfr : (0 : ℚ) ≤ (v - ⌊v⌋) * 1000 :=
      mul_nonneg (by linarith [Int.floor_le v]) (by norm_num)
    simp [setpointCmd, split_int_fractional, pyInt, pyMod1, if_pos hv,
      if_pos hfr]
  · intro p
    have hstep : PowerSupply.init.set_voltage (.finite (51567 / 10000)) p =
        send_cmd (setpointCmd Command.Function.SET_VOLTAGE (51567 / 10000))
          true p :=
      set_voltage_unclamped p (by norm_num) (by norm_num)
    rw [hstep]
    have e1 : pyInt ((51567 : ℚ) / 10000) = 5 := by norm_num [pyInt]
    have e2 : pyInt (pyMod1 ((51567 : ℚ) / 10000) * 1000) = 156 := by
      norm_num [pyInt, pyMod1]
    have hcmd : setpointCmd Command.Function.SET_VOLTAGE (51567 / 10000) =
        { function := [49], data1 := [48, 48, 53], data2 := [49, 53, 54] } := by
      rw [setpointCmd, split_int_fractional]
      simp only [e1]
      rw [show pyInt (pyMod1 ((51567 : ℚ) / 10000) * 1000) = 156 from e2]
      decide
    rw [hcmd]

theorem setpoint_truncation_witness :
    (0 : ℚ) ≤ 51567 / 10000
    ∧ setpointCmd [49] (51567 / 10000) =
      { function := [49], data1 := formatInt03 ⌊(51567 : ℚ) / 10000⌋,
        data2 := formatInt03
          ⌊((51567 : ℚ) / 10000 - ⌊(51567 : ℚ) / 10000⌋) * 1000⌋ }
    ∧ PowerSupply.init.set_voltage (.finite (51567 / 10000)) ⟨[], [], 0⟩ =
      send_cmd { function := [49], data1 := [48, 48, 53],
                 data2 := [49, 53, 54] } true ⟨[], [], 0⟩ :=
  ⟨by norm_num, setpoint_truncation.1 [49] (51567 / 10000) (by norm_num),
   setpoint_truncation.2 ⟨[], [], 0⟩⟩

/-- Claim C1, counterexample: a response carrying data1 = "123" (not "OK0")
still makes `set_voltage` return the response itself — a value that is
present and truthy — whereas the claim requires a false/absent result
whenever the acknowledgement is not "OK0". -/
theorem ack_return_counterexample :
    (PowerSupply.init.set_voltage (.finite 1)
        ⟨[[60, 49, 52, 49, 50, 51, 48, 48, 48, 48, 48, 48, 62]], [], 0⟩).1 =
      .ok (some { address := [49], function := [52], data1 := [49, 50, 51],
                  data2 := [48, 48, 48], device := [48, 48, 48] })
    ∧ Command.is_ok_rsp { address := [49], function := [52],
                          data1 := [49, 50, 51], data2 := [48, 48, 48],
                          device := [48, 48, 48] } = false
    ∧ pyTruthy (some { address := [49], function := [52],
                       data1 := [49, 50, 51], data2 := [48, 48, 48],
                       device := [48, 48, 48] }) = true := by
  refine ⟨?_, by decide, by decide⟩
  have h1 : ¬((1 : ℚ) < 0) := by norm_num
  have h2 : ¬((60 : ℚ) < 1) := by norm_num
  have hstep : PowerSupply.init.set_voltage (.finite 1)
      ⟨[[60, 49, 52, 49, 50, 51, 48, 48, 48, 48, 48, 48, 62]], [], 0⟩ =
      send_cmd (setpointCmd Command.Function.SET_VOLTAGE 1) true
        ⟨[[60, 49, 52, 49, 50, 51, 48, 48, 48, 48, 48, 48, 62]], [], 0⟩ :=
    set_voltage_unclamped _ (by norm_num) h2
  rw [hstep,
    send_cmd_response [] [] 0
      (c := { address := [49], function := [52], data1 := [49, 50, 51],
              data2 := [48, 48, 48], device := [48, 48, 48] })
      (by decide)]

/-- Claim C1, amended: `set_voltage`, `set_current` and `lock_buttons`
return the decoded response Command itself when any response arrives —
regardless of whether its data1 is the "OK0" acknowledgement, which these
methods never inspect (`is_ok_rsp` exists but is not applied) — and absence
when no response arrives. -/
theorem ack_return_amended (b : List Nat) (rest : List (List Nat))
    (w : List (List Nat)) (r : Nat) (c : Command) (v : ℚ) (lock : Bool)
    (hb : Command.from_bytes b = some c) (hv : 0 ≤ v) :
    ((PowerSupply.mk none none).set_voltage (.finite v) ⟨b :: rest, w, r⟩).1 =
      .ok (some c)
    ∧ ((PowerSupply.mk none none).set_current (.finite v) ⟨b :: rest, w, r⟩).1 =
      .ok (some c)
    ∧ ((PowerSupply.mk none none).lock_buttons lock ⟨b :: rest, w, r⟩).1 =
      .ok (some c)
    ∧ ((PowerSupply.mk none none).set_voltage (.finite v) ⟨[], w, r⟩).1 =
      .ok none
    ∧ ((PowerSupply.mk none none).set_current (.finite v) ⟨[], w, r⟩).1 =
      .ok none
    ∧ ((PowerSupply.mk none none).lock_buttons lock ⟨[], w, r⟩).1 =
      .ok none := by
  refine ⟨?_, ?_, ?_, ?_, ?_, ?_⟩
  · rw [set_voltage_unlimited _ hv, send_cmd_response rest w r hb]
  · rw [set_current_unlimited _ hv, send_cmd_response rest w r hb]
  · rw [PowerSupply.lock_buttons, send_cmd_response rest w r hb]
  · rw [set_voltage_unlimited _ hv, send_cmd_timeout]
  · rw [set_current_unlimited _ hv, send_cmd_timeout]
  · rw [PowerSupply.lock_buttons, send_cmd_timeout]

theorem ack_return_amended_witness :
    ((PowerSupply.mk none none).set_voltage (.finite 0)
        ⟨[[60, 49, 52, 49, 50, 51, 48, 48, 48, 48, 48, 48, 62]], [], 0⟩).1 =
      .ok (some { address := [49], function := [52], data1 := [49, 50, 51],
                  data2 := [48, 48, 48], device := [48, 48, 48] })
    ∧ ((PowerSupply.mk none none).lock_buttons true
        ⟨[[60, 49, 52, 49, 50, 51, 48, 48, 48, 48, 48, 48, 62]], [], 0⟩).1 =
      .ok (some { address := [49], function := [52], data1 := [49, 50, 51],
                  data2 := [48, 48, 48], device := [48, 48, 48] })
    ∧ ((PowerSupply.mk none none).set_voltage (.finite 0) ⟨[], [], 0⟩).1 =
      .ok none :=
  ⟨(ack_return_amended [60, 49, 52, 49, 50, 51, 48, 48, 48, 48, 48, 48, 62]
      [] [] 0 { address := [49], function := [52], data1 := [49, 50, 51],
                data2 := [48, 48, 48], device := [48, 48, 48] }
      0 true (by decide) (by norm_num)).1,
   (ack_return_amended [60, 49, 52, 49, 50, 51, 48, 48, 48, 48, 48, 48, 62]
      [] [] 0 { address := [49], function := [52], data1 := [49, 50, 51],
                data2 := [48, 48, 48], device := [48, 48, 48] }
      0 true (by decide) (by norm_num)).2.2.1,
   (ack_return_amended [60, 49, 52, 49, 50, 51, 48, 48, 48, 48, 48, 48, 62]
      [] [] 0 { address := [49], function := [52], data1 := [49, 50, 51],
                data2 := [48, 48, 48], device := [48, 48, 48] }
      0 true (by decide) (by norm_num)).2.2.2.1⟩

end Kuaiqu
